import Mathlib

/-!
Shallow embedding of `src/web3/LP/analyze_swaps.py`: the log-classification
and aggregation pipeline (classifier, amount formatter, flow aggregator,
summary builder).  Python dicts are modelled as association lists in
insertion order, Python `float` arithmetic as exact rationals (ℚ), and the
fallibility of `int(data, 16)` (ValueError on malformed input) as `Option`.
-/

set_option maxRecDepth 4000

namespace AnalyzeSwaps

/-- One raw log record: `log.get("index", 0)`, `log.get("address", "")`,
`log.get("topics", [])`, `log.get("data", "")` — absent keys are their
defaults, so the structure carries the post-`get` values. -/
structure LogRecord where
  index : ℕ
  address : String
  topics : List String
  data : String
deriving DecidableEq

/-- One entry of the `transfers` list built by `analyze_transaction_logs`. -/
structure TransferEvent where
  index : ℕ
  token : String
  token_address : String
  from_addr : String
  to_addr : String
  amount : ℤ
  amount_formatted : String
deriving DecidableEq

/-- One entry of the `swaps` list: two dict shapes, tagged by which
signature branch produced it. -/
inductive SwapEvent where
  | poolSwap (index : ℕ) (pool_address event_type sender recipient data : String)
  | balancerSwap (index : ℕ) (pool_address event_type pool_id token_in token_out data : String)
deriving DecidableEq

/-- The per-token record of `calculate_token_flows` (the defaultdict value). -/
structure TokenFlowStat where
  total_in : ℚ
  total_out : ℚ
  net_flow : ℚ
  transfer_count : ℕ
  decimals : ℕ
deriving DecidableEq

/-- The defaultdict's fresh value:
`{"total_in": 0, "total_out": 0, "net_flow": 0, "transfer_count": 0, "decimals": 18}`. -/
def TokenFlowStat.initial : TokenFlowStat :=
  { total_in := 0, total_out := 0, net_flow := 0, transfer_count := 0, decimals := 18 }

/-- One candidate entry of `potential_swap_paths`. -/
structure SwapPath where
  from_token : String
  to_token : String
  from_amount : String
  to_amount : String
deriving DecidableEq

/-- The dict returned by `generate_summary`. -/
structure AnalysisSummary where
  total_swaps : ℕ
  total_transfers : ℕ
  tokens_involved : List String
  token_flows : List (String × TokenFlowStat)
  potential_swap_paths : List SwapPath
deriving DecidableEq

/-- The dict returned by `analyze_transaction_logs`. -/
structure AnalysisResult where
  swaps : List SwapEvent
  transfers : List TransferEvent
  summary : AnalysisSummary
deriving DecidableEq

/-! Registries (module-level constants of the source) -/

/-- The Transfer(address,address,uint256) signature hash. -/
def transferSig : String :=
  "0xddf252ad1be2c89b69c2b068fc378daa952ba7f163c4a11628f55a4df523b3ef"

/-- Uniswap V3 Swap signature hash. -/
def uniswapV3Sig : String :=
  "0xc42079f94a6350d7e6235f29174924f928cc2ac818eb64fed8004e115fbcca67"

/-- The second pool-swap signature hash variant. -/
def poolSwapSig : String :=
  "0x19b47279256b2a23a1665c810c8d55a1758940ee09377d4f8d26497a3577dc83"

/-- Balancer Swap signature hash. -/
def balancerSig : String :=
  "0x2170c741c41531aec20e7c107c24eecfdd15e69c9bb0a8dd37b1840b9e0b207b"

/-- Registry `KNOWN_TOKENS`: contract address → token symbol; `none` for unknown keys
(the caller supplies the `.get` default at each use site). -/
def KNOWN_TOKENS (a : String) : Option String :=
  if a = "0x833589fcd6edb6e08f4c7c32d4f71b54bda02913" then some "USDC"
  else if a = "0x4200000000000000000000000000000000000006" then some "WETH"
  else if a = "0xcbb7c0000ab88b473b1f5afd9ef808440eed33bf" then some "cbBTC"
  else if a = "0xfde4c96c8593536e31f229ea8f37b2ada2699bb2" then some "USDT"
  else if a = "0x03a520b32c04bf3beef7beb72e919cf822ed34f1" then some "Uniswap V3 NFT"
  else none

/-- Registry `TOKEN_DECIMALS`: token symbol → decimal precision; `none` for unknown
keys (each use site is `.get(sym, 18)`, modelled as `(TOKEN_DECIMALS sym).getD 18`). -/
def TOKEN_DECIMALS (s : String) : Option ℕ :=
  if s = "USDC" then some 6
  else if s = "USDT" then some 6
  else if s = "WETH" then some 18
  else if s = "cbBTC" then some 8
  else if s = "Uniswap V3 NFT" then some 0
  else none

/-! Hex parsing: Python `int(s, 16)` -/

/-- Value of one hexadecimal digit character, `none` if not a hex digit. -/
def hexDigitVal (c : Char) : Option ℕ :=
  if '0' ≤ c ∧ c ≤ '9' then some (c.toNat - '0'.toNat)
  else if 'a' ≤ c ∧ c ≤ 'f' then some (c.toNat - 'a'.toNat + 10)
  else if 'A' ≤ c ∧ c ≤ 'F' then some (c.toNat - 'A'.toNat + 10)
  else none

/-- Value of a nonempty run of hex digits; `none` if empty or any character
is not a hex digit. -/
def hexDigitsVal (cs : List Char) : Option ℕ :=
  match cs with
  | [] => none
  | _ => cs.foldlM (fun acc c => (hexDigitVal c).map (fun v => acc * 16 + v)) 0

/-- Python `int(s, 16)`: optional sign, optional `0x`/`0X` prefix, then one
or more hex digits; `none` models the ValueError raised on anything else. -/
def pyIntBase16 (s : String) : Option ℤ :=
  let signed : ℤ × List Char :=
    match s.data with
    | '-' :: rest => (-1, rest)
    | '+' :: rest => (1, rest)
    | cs => (1, cs)
  let digits : List Char :=
    match signed.2 with
    | '0' :: 'x' :: rest => rest
    | '0' :: 'X' :: rest => rest
    | cs => cs
  (hexDigitsVal digits).map (fun n => signed.1 * n)

/-- Expression `int(data, 16) if data and data != "0x" else 0` — the amount expression
of the Transfer branch; `none` models the ValueError escaping. -/
def parseAmount (data : String) : Option ℤ :=
  if data ≠ "" ∧ data ≠ "0x" then pyIntBase16 data else some 0

/-! Amount formatter -/

/-- Round to the nearest integer, ties to even (the rounding used when
Python formats a float with `:.nf`; all values the development evaluates
are exact at the requested precision, so ties never arise there). -/
def roundHalfEven (q : ℚ) : ℤ :=
  let f := ⌊q⌋
  let r := q - f
  if r < 1/2 then f
  else if 1/2 < r then f + 1
  else if f % 2 = 0 then f else f + 1

/-- Left-pad a string with zeros to length `n`. -/
def padLeftZeros (s : String) (n : ℕ) : String :=
  String.mk (List.replicate (n - s.length) '0') ++ s

/-- Decimal rendering of `m` scaled down by `10 ^ n`, with exactly `n`
digits after the point. -/
def natFixedStr (m n : ℕ) : String :=
  if n = 0 then toString m
  else toString (m / 10 ^ n) ++ "." ++ padLeftZeros (toString (m % 10 ^ n)) n

/-- Python `f"{q:.nf}"` on an exact rational value. -/
def toFixed (q : ℚ) (n : ℕ) : String :=
  let m := roundHalfEven (q * 10 ^ n)
  if m < 0 then "-" ++ natFixedStr m.natAbs n else natFixedStr m.toNat n

/-- Function `format_amount(amount, token_symbol)`.  The decimals registry is passed
in (the source reads module-level `TOKEN_DECIMALS`; call sites here pass
`TOKEN_DECIMALS`), matching the injected-registry contract of the spec. -/
def format_amount (token_decimals : String → Option ℕ) (amount : ℤ)
    (token_symbol : String) : String :=
  if amount = 0 then "0"
  else
    let decimals := (token_decimals token_symbol).getD 18
    if decimals = 0 then toString amount
    else
      let actual_amount : ℚ := amount / 10 ^ decimals
      if actual_amount < 1/1000000 then toFixed actual_amount 8
      else if actual_amount < 1/100 then toFixed actual_amount 6
      else if actual_amount < 1 then toFixed actual_amount 4
      else if actual_amount < 1000 then toFixed actual_amount 2
      else if actual_amount < 1000000 then toFixed (actual_amount / 1000) 2 ++ "K"
      else toFixed (actual_amount / 1000000) 2 ++ "M"

/-! Log classifier -/

/-- Python `topics[i][-40:]`: the rightmost 40 characters (the whole string
when it is shorter than 40). -/
def last40 (s : String) : String := s.drop (s.length - 40)

/-- Python `s.lower()` (character-wise lowering; the addresses and topics
this pipeline lowers are ASCII). -/
def strLower (s : String) : String := String.mk (s.data.map Char.toLower)

/-- One iteration of the `for log in logs` loop of
`analyze_transaction_logs`, appending to the `(swaps, transfers)`
accumulator; `none` models the ValueError of `int(data, 16)` escaping. -/
def classifyStep (acc : List SwapEvent × List TransferEvent) (log : LogRecord) :
    Option (List SwapEvent × List TransferEvent) :=
  if log.topics = [] then some acc
  else if log.topics.getD 0 "" = transferSig then
    if 3 ≤ log.topics.length then
      match parseAmount log.data with
      | none => none
      | some amount =>
        some (acc.1, acc.2 ++ [{
          index := log.index
          token := (KNOWN_TOKENS (strLower log.address)).getD
            ("Token(" ++ (strLower log.address).take 8 ++ "...)")
          token_address := (strLower log.address)
          from_addr := "0x" ++ last40 (log.topics.getD 1 "")
          to_addr := "0x" ++ last40 (log.topics.getD 2 "")
          amount := amount
          amount_formatted := format_amount TOKEN_DECIMALS amount
            ((KNOWN_TOKENS (strLower log.address)).getD
              ("Token(" ++ (strLower log.address).take 8 ++ "...)")) }])
    else some acc
  else if log.topics.getD 0 "" = uniswapV3Sig ∨ log.topics.getD 0 "" = poolSwapSig then
    some (acc.1 ++ [SwapEvent.poolSwap log.index (strLower log.address)
      (if (log.topics.getD 0 "").startsWith "0xc42079" then "Uniswap V3 Swap" else "Pool Swap")
      (if 1 < log.topics.length then "0x" ++ last40 (log.topics.getD 1 "") else "")
      (if 2 < log.topics.length then "0x" ++ last40 (log.topics.getD 2 "") else "")
      log.data], acc.2)
  else if log.topics.getD 0 "" = balancerSig then
    some (acc.1 ++ [SwapEvent.balancerSwap log.index (strLower log.address)
      "Balancer Swap"
      (if 1 < log.topics.length then log.topics.getD 1 "" else "")
      (if 2 < log.topics.length then "0x" ++ last40 (log.topics.getD 2 "") else "")
      (if 3 < log.topics.length then "0x" ++ last40 (log.topics.getD 3 "") else "")
      log.data], acc.2)
  else some acc

/-! Flow aggregator -/

/-- Constant `EXCLUDE_ADDRESSES`: the two excluded address literals of
`calculate_token_flows` (the all-zero address and the "dead" burn address,
both written 32 bytes wide in the source). -/
def EXCLUDE_ADDRESSES : List String :=
  ["0x0000000000000000000000000000000000000000000000000000000000000000",
   "0x000000000000000000000000000000000000000000000000000000000000dead"]

/-- The skip condition of the aggregation loop:
`token == "Uniswap V3 NFT" or from_addr in EXCLUDE_ADDRESSES or to_addr in EXCLUDE_ADDRESSES`. -/
def excludedTransfer (t : TransferEvent) : Bool :=
  t.token = "Uniswap V3 NFT" || EXCLUDE_ADDRESSES.contains t.from_addr
    || EXCLUDE_ADDRESSES.contains t.to_addr

/-- Read a key from the insertion-ordered map, returning the defaultdict's
fresh value when absent. -/
def flowGet (m : List (String × TokenFlowStat)) (k : String) : TokenFlowStat :=
  ((m.find? (fun p => p.1 = k)).map (fun p => p.2)).getD TokenFlowStat.initial

/-- Write a key into the insertion-ordered map: update in place if present,
append if absent (dict insertion order). -/
def flowSet (m : List (String × TokenFlowStat)) (k : String) (v : TokenFlowStat) :
    List (String × TokenFlowStat) :=
  match m with
  | [] => [(k, v)]
  | (k', v') :: rest => if k' = k then (k, v) :: rest else (k', v') :: flowSet rest k v

/-- One iteration of the `for transfer in transfers` loop of
`calculate_token_flows`. -/
def flowStep (m : List (String × TokenFlowStat)) (t : TransferEvent) :
    List (String × TokenFlowStat) :=
  if excludedTransfer t then m
  else
    let decimals := (TOKEN_DECIMALS t.token).getD 18
    let s0 := flowGet m t.token
    let s1 : TokenFlowStat :=
      { total_in := s0.total_in, total_out := s0.total_out, net_flow := s0.net_flow,
        transfer_count := s0.transfer_count + 1, decimals := decimals }
    let actual_amount : ℚ := if 0 < t.amount then t.amount / 10 ^ decimals else 0
    let s2 : TokenFlowStat := if 0 < actual_amount then
        { total_in := s1.total_in + actual_amount, total_out := s1.total_out + actual_amount,
          net_flow := s1.net_flow, transfer_count := s1.transfer_count,
          decimals := s1.decimals }
      else s1
    flowSet m t.token s2

/-- Function `calculate_token_flows(transfers)`: fold the loop, then set
`net_flow = total_in - total_out` on every entry. -/
def calculate_token_flows (transfers : List TransferEvent) :
    List (String × TokenFlowStat) :=
  (transfers.foldl flowStep []).map
    (fun p => (p.1,
      { total_in := p.2.total_in, total_out := p.2.total_out,
        net_flow := p.2.total_in - p.2.total_out,
        transfer_count := p.2.transfer_count, decimals := p.2.decimals }))

/-! Summary builder -/

/-- Function `generate_summary(swaps, transfers)`.  The adjacent-pair scan
`for i in range(len(transfers) - 1)` is the zip of the list with its tail. -/
def generate_summary (swaps : List SwapEvent) (transfers : List TransferEvent) :
    AnalysisSummary :=
  let token_flows := calculate_token_flows transfers
  let swap_paths := (transfers.zip transfers.tail).filterMap
    (fun p => if p.1.token ≠ p.2.token then
        some { from_token := p.1.token, to_token := p.2.token,
               from_amount := p.1.amount_formatted, to_amount := p.2.amount_formatted }
      else none)
  { total_swaps := swaps.length
    total_transfers := transfers.length
    tokens_involved := (transfers.map (fun t => t.token)).dedup
    token_flows := token_flows
    potential_swap_paths := swap_paths.take 5 }

/-- Function `analyze_transaction_logs(logs)`: the classification loop, then the
result dict; `none` when the loop raises. -/
def analyze_transaction_logs (logs : List LogRecord) : Option AnalysisResult :=
  (logs.foldlM classifyStep ([], [])).map
    (fun acc => { swaps := acc.1, transfers := acc.2,
                  summary := generate_summary acc.1 acc.2 })

/-! Derived notions used by the statements -/

/-- The token symbol the classifier assigns to an emitting address:
`KNOWN_TOKENS.get(address, f"Token(\x7baddress[:8]\x7d...)")` after lowering. -/
def tokenSymbolOf (a : String) : String :=
  (KNOWN_TOKENS (strLower a)).getD ("Token(" ++ (strLower a).take 8 ++ "...)")

/-- The TransferEvent the classifier appends for a Transfer record whose
data parsed to `v`. -/
def mkTransferEvent (r : LogRecord) (v : ℤ) : TransferEvent :=
  { index := r.index
    token := tokenSymbolOf r.address
    token_address := (strLower r.address)
    from_addr := "0x" ++ last40 (r.topics.getD 1 "")
    to_addr := "0x" ++ last40 (r.topics.getD 2 "")
    amount := v
    amount_formatted := format_amount TOKEN_DECIMALS v (tokenSymbolOf r.address) }

/-- Whether `needle` occurs contiguously in `hay` (lists of characters). -/
def listSubstr (needle : List Char) : List Char → Bool
  | [] => needle.isEmpty
  | c :: rest => decide (needle = (c :: rest).take needle.length) || listSubstr needle rest

/-- Whether `needle` occurs contiguously in `hay` (strings): the sense in which a
placeholder "embeds" a run of hex digits. -/
def strEmbeds (hay needle : String) : Bool := listSubstr needle.data hay.data

/-! Classifier lemmas -/

theorem transferSig_ne_empty : transferSig ≠ "" := by decide

theorem classifyStep_transfer (r : LogRecord) (sw : List SwapEvent)
    (tr : List TransferEvent) (v : ℤ)
    (hsig : r.topics.getD 0 "" = transferSig) (hlen : 3 ≤ r.topics.length)
    (hamt : parseAmount r.data = some v) :
    classifyStep (sw, tr) r = some (sw, tr ++ [mkTransferEvent r v]) := by
  have hne : r.topics ≠ [] := by
    intro h
    rw [h] at hsig
    exact transferSig_ne_empty hsig.symm
  unfold classifyStep
  rw [if_neg hne, if_pos hsig, if_pos hlen, hamt]
  rfl

theorem classifyStep_transfer_short (acc : List SwapEvent × List TransferEvent)
    (r : LogRecord) (hsig : r.topics.getD 0 "" = transferSig)
    (hlen : r.topics.length < 3) :
    classifyStep acc r = some acc := by
  have hne : r.topics ≠ [] := by
    intro h
    rw [h] at hsig
    exact transferSig_ne_empty hsig.symm
  unfold classifyStep
  rw [if_neg hne, if_pos hsig, if_neg (by omega)]

/-! Flow-aggregator lemmas -/

theorem flowStep_excluded (m : List (String × TokenFlowStat)) (t : TransferEvent)
    (h : excludedTransfer t = true) : flowStep m t = m := by
  unfold flowStep
  rw [if_pos h]

theorem foldl_flowStep_filter (ts : List TransferEvent) :
    ∀ m : List (String × TokenFlowStat),
      ts.foldl flowStep m = (ts.filter (fun t => !excludedTransfer t)).foldl flowStep m := by
  induction ts with
  | nil => intro m; rfl
  | cons t ts ih =>
    intro m
    by_cases h : excludedTransfer t = true
    · rw [List.foldl_cons, flowStep_excluded m t h, List.filter_cons_of_neg (by simp [h]),
        ih m]
    · rw [List.foldl_cons, List.filter_cons_of_pos (by simp [h]), List.foldl_cons, ih]

/-- The balanced-ledger invariant of the running map. -/
def FlowInv (m : List (String × TokenFlowStat)) : Prop :=
  ∀ p ∈ m, p.2.total_in = p.2.total_out

theorem flowGet_balanced (m : List (String × TokenFlowStat)) (k : String)
    (hm : FlowInv m) : (flowGet m k).total_in = (flowGet m k).total_out := by
  unfold flowGet
  cases h : m.find? (fun p => p.1 = k) with
  | none => rfl
  | some p => exact hm p (List.mem_of_find?_eq_some h)

theorem flowSet_inv (m : List (String × TokenFlowStat)) (k : String)
    (v : TokenFlowStat) (hm : FlowInv m) (hv : v.total_in = v.total_out) :
    FlowInv (flowSet m k v) := by
  induction m with
  | nil =>
    intro p hp
    simp only [flowSet, List.mem_singleton] at hp
    simpa [hp] using hv
  | cons q rest ih =>
    intro p hp
    simp only [flowSet] at hp
    by_cases hq : q.1 = k
    · rw [if_pos hq] at hp
      rcases List.mem_cons.1 hp with h | h
      · simpa [h] using hv
      · exact hm p (List.mem_cons_of_mem q h)
    · rw [if_neg hq] at hp
      rcases List.mem_cons.1 hp with h | h
      · exact h ▸ hm q (List.mem_cons_self q rest)
      · exact ih (fun p hp => hm p (List.mem_cons_of_mem q hp)) p h

theorem flowStep_inv (m : List (String × TokenFlowStat)) (t : TransferEvent)
    (hm : FlowInv m) : FlowInv (flowStep m t) := by
  unfold flowStep
  by_cases h : excludedTransfer t = true
  · rw [if_pos h]; exact hm
  · rw [if_neg h]
    have hget := flowGet_balanced m t.token hm
    apply flowSet_inv m t.token _ hm
    by_cases ha : (0 : ℚ) < (if 0 < t.amount then
        (t.amount : ℚ) / 10 ^ ((TOKEN_DECIMALS t.token).getD 18) else 0)
    · simp only [if_pos ha]
      simpa using hget
    · simp only [if_neg ha]
      simpa using hget

theorem foldl_flowStep_inv (ts : List TransferEvent) :
    ∀ m : List (String × TokenFlowStat), FlowInv m → FlowInv (ts.foldl flowStep m) := by
  induction ts with
  | nil => exact fun m hm => hm
  | cons t ts ih => exact fun m hm => ih (flowStep m t) (flowStep_inv m t hm)

/-! Formatter lemmas -/

theorem roundHalfEven_natCast (m : ℕ) : roundHalfEven (m : ℚ) = m := by
  unfold roundHalfEven
  rw [Int.floor_natCast]
  norm_num

/-- When the scaled value is exactly the natural number `m`, fixed-point
formatting is the plain decimal rendering of `m` over `10 ^ k`. -/
theorem toFixed_eq_natFixedStr (q : ℚ) (k : ℕ) (m : ℕ) (h : q * 10 ^ k = (m : ℚ)) :
    toFixed q k = natFixedStr m k := by
  unfold toFixed
  rw [h, roundHalfEven_natCast]
  rw [if_neg (by omega)]
  simp

/-! Claims -/

/-- C1, counterexample: a Transfer record whose data field is a non-empty,
non-hexadecimal string does not yield `raw_amount = 0`; the parse failure
of `int(data, 16)` escapes the whole classification (the result is the
error case), contrary to the claim. -/
theorem c1_nonhex_data_raises :
    analyze_transaction_logs
      [{ index := 0, address := "0x833589fcd6edb6e08f4c7c32d4f71b54bda02913",
         topics := [transferSig, "0xa", "0xb"], data := "0xzz" }] = none := by
  decide

/-- C1 (amended): for a Transfer-signature record with at least 3 topics,
an empty or absent data field (or the bare "0x" prefix) yields
`raw_amount = 0` without failure; but a non-empty data field other than
"0x" that is not a valid base-16 literal makes `int(data, 16)` raise, and
the exception escapes classification. -/
theorem c1_empty_data_zero_nonhex_raises (r : LogRecord) (sw : List SwapEvent)
    (tr : List TransferEvent)
    (hsig : r.topics.getD 0 "" = transferSig) (hlen : 3 ≤ r.topics.length) :
    ((r.data = "" ∨ r.data = "0x") →
      ∃ t, classifyStep (sw, tr) r = some (sw, tr ++ [t]) ∧ t.amount = 0) ∧
    (pyIntBase16 r.data = none → r.data ≠ "" → r.data ≠ "0x" →
      classifyStep (sw, tr) r = none) := by
  constructor
  · intro hd
    refine ⟨mkTransferEvent r 0, classifyStep_transfer r sw tr 0 hsig hlen ?_, rfl⟩
    unfold parseAmount
    rcases hd with h | h <;> simp [h]
  · intro hbad h1 h2
    have hne : r.topics ≠ [] := by
      intro h
      rw [h] at hsig
      exact transferSig_ne_empty hsig.symm
    unfold classifyStep
    rw [if_neg hne, if_pos hsig, if_pos hlen]
    have : parseAmount r.data = none := by
      unfold parseAmount
      rw [if_pos ⟨h1, h2⟩, hbad]
    rw [this]

/-- C1 witness: the amended theorem applied at a concrete empty-data
Transfer record. -/
theorem c1_empty_data_zero_witness :
    ∃ t, classifyStep ([], [])
        { index := 0, address := "0xabc", topics := [transferSig, "0xa", "0xb"],
          data := "" } = some ([], [t]) ∧ t.amount = 0 :=
  (c1_empty_data_zero_nonhex_raises
      { index := 0, address := "0xabc", topics := [transferSig, "0xa", "0xb"], data := "" }
      [] [] (by decide) (by decide)).1 (Or.inl rfl)

/-- C2: transfers whose token is the NFT placeholder symbol or whose
from/to address is one of the excluded address literals contribute nothing
to `calculate_token_flows`: the output is identical to the output on the
list with all such transfers removed. -/
theorem c2_excluded_transfers_contribute_nothing (transfers : List TransferEvent) :
    calculate_token_flows transfers
      = calculate_token_flows (transfers.filter (fun t => !excludedTransfer t)) := by
  unfold calculate_token_flows
  rw [foldl_flowStep_filter transfers []]

/-- C4: in the mapping returned by `calculate_token_flows`, every token's
entry has `total_in = total_out`, `net_flow = total_in - total_out`, and
`net_flow = 0`. -/
theorem c4_net_flow_structurally_zero (transfers : List TransferEvent) :
    (calculate_token_flows transfers).Forall
      (fun p => p.2.total_in = p.2.total_out ∧
        p.2.net_flow = p.2.total_in - p.2.total_out ∧ p.2.net_flow = 0) := by
  rw [List.forall_iff_forall_mem]
  intro p hp
  unfold calculate_token_flows at hp
  rcases List.mem_map.1 hp with ⟨q, hq, rfl⟩
  have hbal := foldl_flowStep_inv transfers [] (by intro p hp; cases hp) q hq
  exact ⟨hbal, rfl, by simpa using sub_eq_zero_of_eq hbal⟩

/-- C5: `potential_swap_paths` in the summary never exceeds length 5,
whatever the swap and transfer lists are. -/
theorem c5_paths_at_most_five (swaps : List SwapEvent) (transfers : List TransferEvent) :
    (generate_summary swaps transfers).potential_swap_paths.length ≤ 5 := by
  simp only [generate_summary, List.length_take]
  exact min_le_left _ _

/-- C6: magnitude brackets are inclusive at the lower bound and exclusive
at the upper bound: for nonzero amount and nonzero decimals, a scaled
value exactly 0.01 is rendered with 4 decimal places, exactly 1 with the
2-decimal rule of [1, 1000), exactly 1000 with the "K" rule, and exactly
1000000 with the "M" rule. -/
theorem c6_boundaries_take_higher_bracket (dec : String → Option ℕ) (amount : ℤ)
    (sym : String) (h0 : amount ≠ 0) (hd : (dec sym).getD 18 ≠ 0) :
    ((amount : ℚ) / 10 ^ ((dec sym).getD 18) = 1/100 →
      format_amount dec amount sym = "0.0100") ∧
    ((amount : ℚ) / 10 ^ ((dec sym).getD 18) = 1 →
      format_amount dec amount sym = "1.00") ∧
    ((amount : ℚ) / 10 ^ ((dec sym).getD 18) = 1000 →
      format_amount dec amount sym = "1.00K") ∧
    ((amount : ℚ) / 10 ^ ((dec sym).getD 18) = 1000000 →
      format_amount dec amount sym = "1.00M") := by
  refine ⟨fun h => ?_, fun h => ?_, fun h => ?_, fun h => ?_⟩ <;>
    simp only [format_amount] <;>
    rw [if_neg h0, if_neg hd, h]
  · rw [if_neg (by norm_num), if_neg (by norm_num), if_pos (by norm_num),
      toFixed_eq_natFixedStr (1/100) 4 100 (by norm_num)]
    decide
  · rw [if_neg (by norm_num), if_neg (by norm_num), if_neg (by norm_num),
      if_pos (by norm_num), toFixed_eq_natFixedStr 1 2 100 (by norm_num)]
    decide
  · rw [if_neg (by norm_num), if_neg (by norm_num), if_neg (by norm_num),
      if_neg (by norm_num), if_pos (by norm_num),
      toFixed_eq_natFixedStr ((1000 : ℚ)/1000) 2 100 (by norm_num)]
    decide
  · rw [if_neg (by norm_num), if_neg (by norm_num), if_neg (by norm_num),
      if_neg (by norm_num), if_neg (by norm_num),
      toFixed_eq_natFixedStr ((1000000 : ℚ)/1000000) 2 100 (by norm_num)]
    decide

/-- C6 witness: 10000 raw USDC (6 decimals) scales to exactly 0.01 and is
rendered with the 4-decimal-place rule. -/
theorem c6_boundaries_take_higher_bracket_witness :
    format_amount TOKEN_DECIMALS 10000 "USDC" = "0.0100" :=
  (c6_boundaries_take_higher_bracket TOKEN_DECIMALS 10000 "USDC" (by decide)
    (by decide)).1 (by norm_num [TOKEN_DECIMALS])

/-- C9: `format_amount` applied to amount 0 returns the literal "0" for
every token symbol and every decimals registry. -/
theorem c9_zero_amount_formats_to_zero (token_decimals : String → Option ℕ)
    (sym : String) : format_amount token_decimals 0 sym = "0" := by
  unfold format_amount
  rw [if_pos rfl]

/-- C7: on a Transfer-signature record with at least 3 topics (and a data
field that parses), the derived transfer's from/to addresses are exactly
"0x" followed by the rightmost 40 characters of topics[1] and topics[2]. -/
theorem c7_addresses_low_40_hex (r : LogRecord) (sw : List SwapEvent)
    (tr : List TransferEvent) (v : ℤ)
    (hsig : r.topics.getD 0 "" = transferSig) (hlen : 3 ≤ r.topics.length)
    (hamt : parseAmount r.data = some v) :
    ∃ t, classifyStep (sw, tr) r = some (sw, tr ++ [t]) ∧
      t.from_addr = "0x" ++ last40 (r.topics.getD 1 "") ∧
      t.to_addr = "0x" ++ last40 (r.topics.getD 2 "") :=
  ⟨mkTransferEvent r v, classifyStep_transfer r sw tr v hsig hlen hamt, rfl, rfl⟩

/-- C7 witness: a concrete record whose 32-byte topics are zero-padded
addresses; the recovered addresses are the low 40 hex characters. -/
theorem c7_addresses_low_40_hex_witness :
    ∃ t, classifyStep ([], [])
        { index := 0, address := "0x833589fcd6edb6e08f4c7c32d4f71b54bda02913",
          topics := [transferSig,
            "0x0000000000000000000000001111111111111111111111111111111111111111",
            "0x0000000000000000000000002222222222222222222222222222222222222222"],
          data := "0x64" } = some ([], [t]) ∧
      t.from_addr = "0x1111111111111111111111111111111111111111" ∧
      t.to_addr = "0x2222222222222222222222222222222222222222" := by
  obtain ⟨t, h1, h2, h3⟩ := c7_addresses_low_40_hex
    { index := 0, address := "0x833589fcd6edb6e08f4c7c32d4f71b54bda02913",
      topics := [transferSig,
        "0x0000000000000000000000001111111111111111111111111111111111111111",
        "0x0000000000000000000000002222222222222222222222222222222222222222"],
      data := "0x64" } [] [] 100 (by decide) (by decide) (by decide)
  exact ⟨t, h1, h2.trans (by decide), h3.trans (by decide)⟩

/-- C3, counterexample: at a concrete unknown emitting address, the
placeholder token symbol is "Token(0xaabbcc...)"; the first 4 bytes of the
address are the hex digits "aabbccdd", and that run does not occur in the
placeholder (the placeholder embeds the "0x" prefix plus only 3 bytes),
contrary to the claim. -/
theorem c3_placeholder_lacks_fourth_byte :
    (classifyStep ([], [])
        { index := 0, address := "0xaabbccddeeff00112233445566778899aabbccdd",
          topics := [transferSig, "0xa", "0xb"], data := "0x5" }).map
        (fun p => p.2.map (fun t => t.token)) = some ["Token(0xaabbcc...)"] ∧
    strEmbeds "Token(0xaabbcc...)" "aabbccdd" = false := by
  decide

/-- C3 (amended): for a Transfer-signature record with at least 3 topics
whose lower-cased emitting address is not in the token registry, the
derived token_symbol is the placeholder embedding the first 8 characters
of the address string (the "0x" prefix plus the first 3 bytes), and it is
never empty. -/
theorem c3_unknown_token_placeholder (r : LogRecord) (sw : List SwapEvent)
    (tr : List TransferEvent) (v : ℤ)
    (hsig : r.topics.getD 0 "" = transferSig) (hlen : 3 ≤ r.topics.length)
    (hamt : parseAmount r.data = some v)
    (hunk : KNOWN_TOKENS (strLower r.address) = none) :
    ∃ t, classifyStep (sw, tr) r = some (sw, tr ++ [t]) ∧
      t.token = "Token(" ++ (strLower r.address).take 8 ++ "...)" ∧ t.token ≠ "" := by
  have htok : tokenSymbolOf r.address = "Token(" ++ (strLower r.address).take 8 ++ "...)" := by
    unfold tokenSymbolOf
    rw [hunk]
    rfl
  refine ⟨mkTransferEvent r v, classifyStep_transfer r sw tr v hsig hlen hamt, htok, ?_⟩
  show tokenSymbolOf r.address ≠ ""
  rw [htok]
  intro h
  have hlen0 := congrArg String.length h
  rw [String.length_append, String.length_append] at hlen0
  have h6 : "Token(".length = 6 := by decide
  have h4 : "...)".length = 4 := by decide
  have h0 : "".length = 0 := by decide
  omega

/-- C3 witness: the amended theorem at a concrete unknown address. -/
theorem c3_unknown_token_placeholder_witness :
    ∃ t, classifyStep ([], [])
        { index := 0, address := "0xaabbccddeeff00112233445566778899aabbccde",
          topics := [transferSig, "0xa", "0xb"], data := "0x5" } = some ([], [t]) ∧
      t.token = "Token(0xaabbcc...)" ∧ t.token ≠ "" := by
  obtain ⟨t, h1, h2, h3⟩ := c3_unknown_token_placeholder
    { index := 0, address := "0xaabbccddeeff00112233445566778899aabbccde",
      topics := [transferSig, "0xa", "0xb"], data := "0x5" } [] [] 5
    (by decide) (by decide) (by decide) (by decide)
  exact ⟨t, h1, h2.trans (by decide), h3⟩

/-- C8: for an input of exactly two Transfer-signature records whose
emitting addresses resolve to different token symbols, the summary's
potential_swap_paths is the single path TokenA→TokenB carrying the two
transfers' formatted amounts. -/
theorem c8_two_transfers_one_swap_path (r0 r1 : LogRecord) (v0 v1 : ℤ)
    (h0sig : r0.topics.getD 0 "" = transferSig) (h0len : 3 ≤ r0.topics.length)
    (h0amt : parseAmount r0.data = some v0)
    (h1sig : r1.topics.getD 0 "" = transferSig) (h1len : 3 ≤ r1.topics.length)
    (h1amt : parseAmount r1.data = some v1)
    (hdiff : tokenSymbolOf r0.address ≠ tokenSymbolOf r1.address) :
    (analyze_transaction_logs [r0, r1]).map
        (fun res => res.summary.potential_swap_paths)
      = some [{ from_token := tokenSymbolOf r0.address,
                to_token := tokenSymbolOf r1.address,
                from_amount := format_amount TOKEN_DECIMALS v0 (tokenSymbolOf r0.address),
                to_amount := format_amount TOKEN_DECIMALS v1 (tokenSymbolOf r1.address) }] := by
  have hs0 : classifyStep ([], []) r0 = some ([], [mkTransferEvent r0 v0]) := by
    simpa using classifyStep_transfer r0 [] [] v0 h0sig h0len h0amt
  have hs1 : classifyStep ([], [mkTransferEvent r0 v0]) r1
      = some ([], [mkTransferEvent r0 v0, mkTransferEvent r1 v1]) := by
    simpa using classifyStep_transfer r1 [] [mkTransferEvent r0 v0] v1 h1sig h1len h1amt
  have hfold : List.foldlM classifyStep (([] : List SwapEvent), ([] : List TransferEvent))
      [r0, r1] = some ([], [mkTransferEvent r0 v0, mkTransferEvent r1 v1]) := by
    simp [List.foldlM_cons, List.foldlM_nil, hs0, hs1]
  unfold analyze_transaction_logs
  rw [hfold]
  show some _ = some _
  congr 1
  show (generate_summary [] [mkTransferEvent r0 v0, mkTransferEvent r1 v1]).potential_swap_paths = _
  unfold generate_summary
  show ((List.zip [mkTransferEvent r0 v0, mkTransferEvent r1 v1]
      [mkTransferEvent r1 v1]).filterMap _).take 5 = _
  rw [List.zip_cons_cons, List.zip_nil_right, List.filterMap_cons, List.filterMap_nil]
  have : (mkTransferEvent r0 v0).token ≠ (mkTransferEvent r1 v1).token := hdiff
  rw [if_pos this]
  rfl

/-- C8 witness: two concrete records, USDC then WETH. -/
theorem c8_two_transfers_one_swap_path_witness :
    (analyze_transaction_logs
        [{ index := 0, address := "0x833589fcd6edb6e08f4c7c32d4f71b54bda02913",
           topics := [transferSig, "0xa", "0xb"], data := "0xF4240" },
         { index := 1, address := "0x4200000000000000000000000000000000000006",
           topics := [transferSig, "0xa", "0xb"], data := "0x5" }]).map
        (fun res => res.summary.potential_swap_paths)
      = some [{ from_token := "USDC", to_token := "WETH",
                from_amount := format_amount TOKEN_DECIMALS 1000000 "USDC",
                to_amount := format_amount TOKEN_DECIMALS 5 "WETH" }] := by
  have h := c8_two_transfers_one_swap_path
    { index := 0, address := "0x833589fcd6edb6e08f4c7c32d4f71b54bda02913",
      topics := [transferSig, "0xa", "0xb"], data := "0xF4240" }
    { index := 1, address := "0x4200000000000000000000000000000000000006",
      topics := [transferSig, "0xa", "0xb"], data := "0x5" }
    1000000 5 (by decide) (by decide) (by decide) (by decide) (by decide) (by decide)
    (by decide)
  rw [h]
  have hA : tokenSymbolOf "0x833589fcd6edb6e08f4c7c32d4f71b54bda02913" = "USDC" := by decide
  have hB : tokenSymbolOf "0x4200000000000000000000000000000000000006" = "WETH" := by decide
  rw [hA, hB]

/-- C10: a record with the Transfer signature but fewer than 3 topics is
silently dropped: the analysis of the whole list is the same with and
without it, and no error is raised. -/
theorem c10_short_transfer_record_dropped (logs : List LogRecord) (r : LogRecord)
    (hsig : r.topics.getD 0 "" = transferSig) (hlen : r.topics.length < 3) :
    analyze_transaction_logs (r :: logs) = analyze_transaction_logs logs := by
  unfold analyze_transaction_logs
  rw [List.foldlM_cons, classifyStep_transfer_short ([], []) r hsig hlen]
  rfl

/-- C10 witness: the theorem applied to a concrete 2-topic Transfer record
prepended to the empty list. -/
theorem c10_short_transfer_record_dropped_witness :
    analyze_transaction_logs
        [{ index := 0, address := "0xabc", topics := [transferSig, "0xa"], data := "0x5" }]
      = analyze_transaction_logs [] :=
  c10_short_transfer_record_dropped []
    { index := 0, address := "0xabc", topics := [transferSig, "0xa"], data := "0x5" }
    (by decide) (by decide)

end AnalyzeSwaps
